import Mathlib

/-! # Authenticated fetch wrapper (frontend/src/utils/axiosConfig.js)

A shallow embedding of the object `fetchWrapper` with its three async verbs
`get`, `post` and `delete`, and the properties of its token-refresh and retry
logic.

The verbs call collaborators that live outside the file (`isTokenValid`,
`refreshToken`, `logout` from `./authUtils`, `getAuthHeader` from
`../config/api`, and the platform functions `fetch`, `JSON.stringify`,
`instanceof FormData`).  They are the fields of an environment `Env` acting on
an arbitrary state `σ`; every call made by a verb is appended to a log, so
that the number and the order of the sends, refreshes and logouts can be
stated.  JavaScript values (request bodies, decoded payloads) are an arbitrary
type `ν`.
-/

namespace AJCChurch

/-! ## Data model -/

/-- A plain JavaScript object with string properties, given by the sequence of
its property definitions: a later definition of a key overrides an earlier
one. -/
abbrev JsObject := List (String × String)

/-- Property read `o[key]`: the last definition of `key`, `none` when the
object has no such property. -/
def getProp : JsObject → String → Option String
  | [], _ => none
  | (k, v) :: rest, key =>
    match getProp rest key with
    | some w => some w
    | none => if k = key then some v else none

/-- Object spread `{ ...target, ...source }`: the properties of `source` are
defined after those of `target`. -/
def objectSpread (target source : JsObject) : JsObject := target ++ source

/-- A JavaScript error object: `new Error(message)` has name `Error`. -/
structure JsError where
  name : String
  message : String
deriving DecidableEq, Repr

/-- The expression `new Error(message)`. -/
def newError (message : String) : JsError := ⟨"Error", message⟩

/-- The arguments of one `fetch(url, { method, headers, body })` call. -/
structure Request (ν : Type) where
  url : String
  method : String
  headers : JsObject
  body : Option ν
deriving DecidableEq, Repr

/-- A `Response` as far as the wrapper reads it: `status`, and what
`response.json()` settles to. -/
structure Response (ν : Type) where
  status : Nat
  json : Except JsError ν

/-- The getter `response.ok` of the Fetch standard: the status is in the range
200 to 299. -/
def Response.ok {ν : Type} (r : Response ν) : Bool :=
  decide (200 ≤ r.status ∧ r.status ≤ 299)

/-- The object a verb resolves to: `{ data, status }` for get and post,
`{ status }` (no `data` property) for delete. -/
structure Result (ν : Type) where
  data : Option ν
  status : Nat
deriving DecidableEq, Repr

/-- One call made by a verb to a collaborator, with what it was given or what
it returned. -/
inductive Event (ν : Type) where
  | isTokenValid (result : Bool)
  | refreshToken (result : Bool)
  | logout
  | getAuthHeader (result : JsObject)
  | fetch (request : Request ν)
  | consoleError (error : JsError)
deriving DecidableEq, Repr

/-- The collaborators of the wrapper, as functions on a state `σ`.  They come
from other modules (`./authUtils`, `../config/api`) or from the platform, so
they are parameters, with the shapes the wrapper relies on: `isTokenValid()`
and `await refreshToken()` are used as booleans, `getAuthHeader()` is spread
as an object, `logout()` is called for its effect.  `fetch` either rejects
with an error or resolves to a response. -/
structure Env (σ ν : Type) where
  isTokenValid : σ → Bool × σ
  refreshToken : σ → Bool × σ
  logout : σ → σ
  getAuthHeader : σ → JsObject × σ
  fetch : Request ν → σ → Except JsError (Response ν) × σ
  instanceofFormData : ν → Bool
  jsonStringify : ν → ν

/-- The state of the collaborators and the log of the calls made so far. -/
structure World (σ ν : Type) where
  st : σ
  log : List (Event ν)

/-- The promise returned by an async verb: resolved with a result, rejected
with an error, or still pending when the entries allowed to the verb are used
up. -/
inductive Outcome (ν : Type) where
  | resolved (value : Result ν)
  | rejected (error : JsError)
  | pending
deriving DecidableEq, Repr

/-- The promise of a verb together with the world the verb leaves. -/
abbrev Settled (σ ν : Type) := Outcome ν × World σ ν

/-- The third parameter of `post`, `options = {}`, with its property
`headers` (the empty object when the caller gives none). -/
structure Options where
  headers : JsObject
deriving DecidableEq, Repr

/-- Line 5: `const API_BASE_URL`. -/
def API_BASE_URL : String := "http://localhost:5000"

section Calls

variable {σ ν : Type}

/-- The call `isTokenValid()`. -/
def callIsTokenValid (env : Env σ ν) (w : World σ ν) : Bool × World σ ν :=
  ((env.isTokenValid w.st).1,
    ⟨(env.isTokenValid w.st).2, w.log ++ [Event.isTokenValid (env.isTokenValid w.st).1]⟩)

/-- The call `await refreshToken()`. -/
def callRefreshToken (env : Env σ ν) (w : World σ ν) : Bool × World σ ν :=
  ((env.refreshToken w.st).1,
    ⟨(env.refreshToken w.st).2, w.log ++ [Event.refreshToken (env.refreshToken w.st).1]⟩)

/-- The call `logout()`. -/
def callLogout (env : Env σ ν) (w : World σ ν) : World σ ν :=
  ⟨env.logout w.st, w.log ++ [Event.logout]⟩

/-- The call `getAuthHeader()`. -/
def callGetAuthHeader (env : Env σ ν) (w : World σ ν) : JsObject × World σ ν :=
  ((env.getAuthHeader w.st).1,
    ⟨(env.getAuthHeader w.st).2, w.log ++ [Event.getAuthHeader (env.getAuthHeader w.st).1]⟩)

/-- The call `await fetch(url, init)`. -/
def callFetch (env : Env σ ν) (req : Request ν) (w : World σ ν) :
    Except JsError (Response ν) × World σ ν :=
  ((env.fetch req w.st).1, ⟨(env.fetch req w.st).2, w.log ++ [Event.fetch req]⟩)

/-- The `catch (error)` block of each verb: `console.error('Fetch error:',
error); throw error;`. -/
def catchRethrow (error : JsError) (w : World σ ν) : Settled σ ν :=
  (Outcome.rejected error, ⟨w.st, w.log ++ [Event.consoleError error]⟩)

/-- The token check that opens each verb (lines 13-20, 61-68, 112-119):
`if (!isTokenValid()) { const refreshed = await refreshToken();
if (!refreshed) { logout(); throw new Error('Authentication failed'); } }`. -/
def ensureToken (env : Env σ ν) (w : World σ ν) : Except JsError Unit × World σ ν :=
  if !(callIsTokenValid env w).1 then
    if !(callRefreshToken env (callIsTokenValid env w).2).1 then
      (Except.error (newError "Authentication failed"),
        callLogout env (callRefreshToken env (callIsTokenValid env w).2).2)
    else
      (Except.ok (), (callRefreshToken env (callIsTokenValid env w).2).2)
  else
    (Except.ok (), (callIsTokenValid env w).2)

/-- The message of line 46, 97, 145: the template literal
`HTTP error! status: ${response.status}`. -/
def httpErrorMessage (status : Nat) : String :=
  "HTTP error! status: " ++ toString status

/-- The headers of a get and of a delete (lines 24-27, 123-126):
`{ 'Content-Type': 'application/json', ...getAuthHeader() }`. -/
def jsonHeaders (auth : JsObject) : JsObject :=
  objectSpread [("Content-Type", "application/json")] auth

/-- The headers of a post (lines 74-77):
`{ ...(!isFormData && { 'Content-Type': 'application/json' }), ...getAuthHeader() }`. -/
def postHeaders (isFormData : Bool) (auth : JsObject) : JsObject :=
  objectSpread (if !isFormData then [("Content-Type", "application/json")] else []) auth

/-- The body of a post (line 78): `isFormData ? body : JSON.stringify(body)`. -/
def postBody (env : Env σ ν) (isFormData : Bool) (body : ν) : ν :=
  if isFormData then body else env.jsonStringify body

end Calls

/-! ## The three verbs

Each verb calls itself after a successful refresh (lines 38, 89, 137), with no
bound in the source, so the embedding takes the number of entries `fuel` the
verb is allowed; when they are used up the promise is `pending` and the world
is the one reached so far. -/

section Verbs

variable {σ ν : Type}

/-- The init object of the fetch of `get` (lines 22-28). -/
def getRequest (url : String) (auth : JsObject) : Request ν :=
  { url := API_BASE_URL ++ url, method := "GET", headers := jsonHeaders auth, body := none }

/-- The init object of the fetch of `post` (lines 70-79). -/
def postRequest (env : Env σ ν) (url : String) (body : ν) (auth : JsObject) : Request ν :=
  { url := API_BASE_URL ++ url, method := "POST",
    headers := postHeaders (env.instanceofFormData body) auth,
    body := some (postBody env (env.instanceofFormData body) body) }

/-- The init object of the fetch of `delete` (lines 121-127). -/
def deleteRequest (url : String) (auth : JsObject) : Request ν :=
  { url := API_BASE_URL ++ url, method := "DELETE", headers := jsonHeaders auth, body := none }

/-- Lines 10-55: `fetchWrapper.get(url)`.  The retry of line 38 is returned
without `await`, so what it rejects with does not pass through the `catch` of
this entry. -/
def fetchWrapper.get (env : Env σ ν) : Nat → String → World σ ν → Settled σ ν
  | 0, _, w => (Outcome.pending, w)
  | fuel + 1, url, w =>
    match ensureToken env w with
    | (Except.error e, w1) => catchRethrow e w1
    | (Except.ok _, w1) =>
      match callFetch env (getRequest url (callGetAuthHeader env w1).1)
          (callGetAuthHeader env w1).2 with
      | (Except.error e, w3) => catchRethrow e w3
      | (Except.ok response, w3) =>
        if !response.ok then
          if response.status = 401 then
            if (callRefreshToken env w3).1 then
              fetchWrapper.get env fuel url (callRefreshToken env w3).2
            else
              catchRethrow (newError "Authentication failed")
                (callLogout env (callRefreshToken env w3).2)
          else
            catchRethrow (newError (httpErrorMessage response.status)) w3
        else
          match response.json with
          | Except.error e => catchRethrow e w3
          | Except.ok data =>
            (Outcome.resolved { data := some data, status := response.status }, w3)

/-- Lines 58-106: `fetchWrapper.post(url, body, options = {})`.  The parameter
`options` is only handed on to the retry of line 89. -/
def fetchWrapper.post (env : Env σ ν) :
    Nat → String → ν → Options → World σ ν → Settled σ ν
  | 0, _, _, _, w => (Outcome.pending, w)
  | fuel + 1, url, body, options, w =>
    match ensureToken env w with
    | (Except.error e, w1) => catchRethrow e w1
    | (Except.ok _, w1) =>
      match callFetch env (postRequest env url body (callGetAuthHeader env w1).1)
          (callGetAuthHeader env w1).2 with
      | (Except.error e, w3) => catchRethrow e w3
      | (Except.ok response, w3) =>
        if !response.ok then
          if response.status = 401 then
            if (callRefreshToken env w3).1 then
              fetchWrapper.post env fuel url body options (callRefreshToken env w3).2
            else
              catchRethrow (newError "Authentication failed")
                (callLogout env (callRefreshToken env w3).2)
          else
            catchRethrow (newError (httpErrorMessage response.status)) w3
        else
          match response.json with
          | Except.error e => catchRethrow e w3
          | Except.ok data =>
            (Outcome.resolved { data := some data, status := response.status }, w3)

/-- Lines 109-153: `fetchWrapper.delete(url)`.  The response body is not
read: the result is `{ status: response.status }`. -/
def fetchWrapper.delete (env : Env σ ν) : Nat → String → World σ ν → Settled σ ν
  | 0, _, w => (Outcome.pending, w)
  | fuel + 1, url, w =>
    match ensureToken env w with
    | (Except.error e, w1) => catchRethrow e w1
    | (Except.ok _, w1) =>
      match callFetch env (deleteRequest url (callGetAuthHeader env w1).1)
          (callGetAuthHeader env w1).2 with
      | (Except.error e, w3) => catchRethrow e w3
      | (Except.ok response, w3) =>
        if !response.ok then
          if response.status = 401 then
            if (callRefreshToken env w3).1 then
              fetchWrapper.delete env fuel url (callRefreshToken env w3).2
            else
              catchRethrow (newError "Authentication failed")
                (callLogout env (callRefreshToken env w3).2)
          else
            catchRethrow (newError (httpErrorMessage response.status)) w3
        else
          (Outcome.resolved { data := none, status := response.status }, w3)

end Verbs

/-! ## The common shape of the three verbs

The three verbs differ only in the init object handed to `fetch` and in what
they do with a 2xx response.  `attemptLoop` is written with these two as
parameters; the verbs are shown equal to its instances and the properties
that need an induction on the number of entries are proved once, on it. -/

section Shape

variable {σ ν : Type}

/-- What get and post do with a 2xx response (lines 49-50, 100-101):
`const data = await response.json(); return { data, status: response.status }`. -/
def finishJson (response : Response ν) (w : World σ ν) : Settled σ ν :=
  match response.json with
  | Except.error e => catchRethrow e w
  | Except.ok data => (Outcome.resolved { data := some data, status := response.status }, w)

/-- What delete does with a 2xx response (line 148):
`return { status: response.status }`. -/
def finishStatus (response : Response ν) (w : World σ ν) : Settled σ ν :=
  (Outcome.resolved { data := none, status := response.status }, w)

/-- The body shared by the three verbs, for an init object `mk` and a
treatment `finish` of a 2xx response. -/
def attemptLoop (env : Env σ ν) (mk : JsObject → Request ν)
    (finish : Response ν → World σ ν → Settled σ ν) : Nat → World σ ν → Settled σ ν
  | 0, w => (Outcome.pending, w)
  | fuel + 1, w =>
    match ensureToken env w with
    | (Except.error e, w1) => catchRethrow e w1
    | (Except.ok _, w1) =>
      match callFetch env (mk (callGetAuthHeader env w1).1) (callGetAuthHeader env w1).2 with
      | (Except.error e, w3) => catchRethrow e w3
      | (Except.ok response, w3) =>
        if !response.ok then
          if response.status = 401 then
            if (callRefreshToken env w3).1 then
              attemptLoop env mk finish fuel (callRefreshToken env w3).2
            else
              catchRethrow (newError "Authentication failed")
                (callLogout env (callRefreshToken env w3).2)
          else
            catchRethrow (newError (httpErrorMessage response.status)) w3
        else
          finish response w3

end Shape

/-! ## Reading the log -/

/-- The number of places of a text where two slashes follow each other. -/
def countDoubleSlash : List Char → Nat
  | [] => 0
  | [_] => 0
  | a :: b :: rest => (if a = '/' ∧ b = '/' then 1 else 0) + countDoubleSlash (b :: rest)

/-- The number written by a list of decimal digits, read after the digits
already accumulated in `acc`; it reads the status back from the message of an
HTTP error. -/
def decimalValue (acc : Nat) (cs : List Char) : Nat :=
  cs.foldl (fun a c => a * 10 + (c.toNat - 48)) acc


section Log

variable {ν : Type}

/-- The requests handed to `fetch`, in order. -/
def sends : List (Event ν) → List (Request ν)
  | [] => []
  | Event.fetch req :: rest => req :: sends rest
  | _ :: rest => sends rest

/-- The results of the `refreshToken()` calls, in order. -/
def refreshes : List (Event ν) → List Bool
  | [] => []
  | Event.refreshToken r :: rest => r :: refreshes rest
  | _ :: rest => refreshes rest

/-- The number of `logout()` calls. -/
def logouts : List (Event ν) → Nat
  | [] => 0
  | Event.logout :: rest => logouts rest + 1
  | _ :: rest => logouts rest

end Log

/-! ## Scripted collaborators for the worked examples -/

/-- Sample JavaScript values: a text value, or a `FormData` object. -/
inductive SampleValue where
  | text (s : String)
  | formData (field : String)
deriving DecidableEq, Repr

/-- State of the scripted collaborators: the answers still to be given by
`isTokenValid`, `refreshToken` and `fetch`, and the stored token. -/
structure Script where
  valid : List Bool
  refresh : List Bool
  responses : List (Except JsError (Response SampleValue))
  token : String

/-- Collaborators that answer from a script: `isTokenValid` and
`refreshToken` give the next scripted answer (`true`, resp. `false`, when the
script is used up), a refresh that succeeds stores a new token, `logout`
clears it, and `fetch` settles to the next scripted response. -/
def scriptEnv : Env Script SampleValue where
  isTokenValid s := (s.valid.headD true, { s with valid := s.valid.tail })
  refreshToken s :=
    (s.refresh.headD false,
      { s with refresh := s.refresh.tail,
               token := if s.refresh.headD false then s.token ++ "*" else s.token })
  logout s := { s with token := "" }
  getAuthHeader s := ([("Authorization", "Bearer " ++ s.token)], s)
  fetch _ s :=
    (s.responses.headD (Except.error ⟨"TypeError", "Failed to fetch"⟩),
      { s with responses := s.responses.tail })
  instanceofFormData v := match v with
    | SampleValue.formData _ => true
    | SampleValue.text _ => false
  jsonStringify v := match v with
    | SampleValue.text s => SampleValue.text ("\"" ++ s ++ "\"")
    | SampleValue.formData _ => SampleValue.text "\x7b\x7d"

/-- A response with the given status whose body decodes to the given text. -/
def sampleResponse (status : Nat) (body : String) : Response SampleValue :=
  { status := status, json := Except.ok (SampleValue.text body) }

/-- A response with the given status and an empty body, which
`response.json()` cannot decode. -/
def emptyBodyResponse (status : Nat) : Response SampleValue :=
  { status := status,
    json := Except.error ⟨"SyntaxError", "Unexpected end of JSON input"⟩ }

/-- A store that reports valid, a server that answers 401 twice and then 200,
and a refresh that succeeds twice. -/
def thirdSendScript : Script :=
  { valid := [true, true, true], refresh := [true, true],
    responses := [Except.ok (sampleResponse 401 "no"), Except.ok (sampleResponse 401 "no"),
      Except.ok (sampleResponse 200 "yes")],
    token := "t" }

/-! ## Properties -/

section Properties

variable {σ ν : Type}

theorem ok_false_of_401 (r : Response ν) (h : r.status = 401) : r.ok = false := by
  simp [Response.ok, h]

/-- C1, as stated, fails: with a store that reports valid, a first and a
second send answered 401 and refreshes that succeed, each verb sends a third
time and resolves with the third response; it does not reject after two
sends. -/
theorem C1_third_send_counterexample :
    (scriptEnv.isTokenValid thirdSendScript).1 = true ∧
    (fetchWrapper.get scriptEnv 3 "/api/events" ⟨thirdSendScript, []⟩).1
      = Outcome.resolved { data := some (SampleValue.text "yes"), status := 200 } ∧
    (sends (fetchWrapper.get scriptEnv 3 "/api/events" ⟨thirdSendScript, []⟩).2.log).length = 3 ∧
    (fetchWrapper.post scriptEnv 3 "/api/events" (SampleValue.text "b") ⟨[]⟩
        ⟨thirdSendScript, []⟩).1
      = Outcome.resolved { data := some (SampleValue.text "yes"), status := 200 } ∧
    (sends (fetchWrapper.post scriptEnv 3 "/api/events" (SampleValue.text "b") ⟨[]⟩
        ⟨thirdSendScript, []⟩).2.log).length = 3 ∧
    (fetchWrapper.delete scriptEnv 3 "/api/events/1" ⟨thirdSendScript, []⟩).1
      = Outcome.resolved { data := none, status := 200 } ∧
    (sends (fetchWrapper.delete scriptEnv 3 "/api/events/1" ⟨thirdSendScript, []⟩).2.log).length
      = 3 := by
  refine ⟨rfl, ?_, ?_, ?_, ?_, ?_, ?_⟩ <;> decide

/-- C1, amended: when the store reports valid, the first send is answered
401, the refresh succeeds, the store reports valid again and the second send is
answered 401 too, each verb calls `refreshToken` a second time.  If that call
returns false the verb calls `logout` once and rejects with
`Error('Authentication failed')` after exactly two sends; if it returns true
the verb is entered again from the top. -/
theorem C1_second_401_refreshes_again (env : Env σ ν) (url : String) (body : ν)
    (options : Options) (w : World σ ν) (fuel : Nat) (mk : JsObject → Request ν)
    (s1 s2 s3 s4 s5 s6 s7 s8 : σ) (a1 a2 : JsObject) (r1 r2 : Response ν) (b : Bool)
    (hv1 : env.isTokenValid w.st = (true, s1))
    (ha1 : env.getAuthHeader s1 = (a1, s2))
    (hf1 : env.fetch (mk a1) s2 = (Except.ok r1, s3)) (h1 : r1.status = 401)
    (hr1 : env.refreshToken s3 = (true, s4))
    (hv2 : env.isTokenValid s4 = (true, s5))
    (ha2 : env.getAuthHeader s5 = (a2, s6))
    (hf2 : env.fetch (mk a2) s6 = (Except.ok r2, s7)) (h2 : r2.status = 401)
    (hr2 : env.refreshToken s7 = (b, s8)) :
    (mk = getRequest url →
      fetchWrapper.get env (fuel + 2) url w =
        if b then
          fetchWrapper.get env fuel url
            ⟨s8, w.log ++ [Event.isTokenValid true, Event.getAuthHeader a1, Event.fetch (mk a1),
              Event.refreshToken true, Event.isTokenValid true, Event.getAuthHeader a2,
              Event.fetch (mk a2), Event.refreshToken true]⟩
        else
          (Outcome.rejected (newError "Authentication failed"),
            ⟨env.logout s8,
              w.log ++ [Event.isTokenValid true, Event.getAuthHeader a1, Event.fetch (mk a1),
                Event.refreshToken true, Event.isTokenValid true, Event.getAuthHeader a2,
                Event.fetch (mk a2), Event.refreshToken false, Event.logout,
                Event.consoleError (newError "Authentication failed")]⟩)) ∧
    (mk = postRequest env url body →
      fetchWrapper.post env (fuel + 2) url body options w =
        if b then
          fetchWrapper.post env fuel url body options
            ⟨s8, w.log ++ [Event.isTokenValid true, Event.getAuthHeader a1, Event.fetch (mk a1),
              Event.refreshToken true, Event.isTokenValid true, Event.getAuthHeader a2,
              Event.fetch (mk a2), Event.refreshToken true]⟩
        else
          (Outcome.rejected (newError "Authentication failed"),
            ⟨env.logout s8,
              w.log ++ [Event.isTokenValid true, Event.getAuthHeader a1, Event.fetch (mk a1),
                Event.refreshToken true, Event.isTokenValid true, Event.getAuthHeader a2,
                Event.fetch (mk a2), Event.refreshToken false, Event.logout,
                Event.consoleError (newError "Authentication failed")]⟩)) ∧
    (mk = deleteRequest url →
      fetchWrapper.delete env (fuel + 2) url w =
        if b then
          fetchWrapper.delete env fuel url
            ⟨s8, w.log ++ [Event.isTokenValid true, Event.getAuthHeader a1, Event.fetch (mk a1),
              Event.refreshToken true, Event.isTokenValid true, Event.getAuthHeader a2,
              Event.fetch (mk a2), Event.refreshToken true]⟩
        else
          (Outcome.rejected (newError "Authentication failed"),
            ⟨env.logout s8,
              w.log ++ [Event.isTokenValid true, Event.getAuthHeader a1, Event.fetch (mk a1),
                Event.refreshToken true, Event.isTokenValid true, Event.getAuthHeader a2,
                Event.fetch (mk a2), Event.refreshToken false, Event.logout,
                Event.consoleError (newError "Authentication failed")]⟩)) := by
  have k1 := ok_false_of_401 r1 h1
  have k2 := ok_false_of_401 r2 h2
  refine ⟨?_, ?_, ?_⟩ <;> rintro rfl <;> cases b <;>
    simp [fetchWrapper.get, fetchWrapper.post, fetchWrapper.delete, ensureToken,
      callIsTokenValid, callRefreshToken, callLogout, callGetAuthHeader, callFetch,
      catchRethrow, hv1, ha1, hf1, h1, hr1, hv2, ha2, hf2, h2, hr2, k1, k2]

/-- A store that reports valid, a server that answers 401 twice, a refresh
that succeeds once and then fails. -/
theorem C1_second_401_refreshes_again_witness :
    fetchWrapper.get scriptEnv 2 "/api/events"
        ⟨{ valid := [true, true], refresh := [true, false],
           responses := [Except.ok (sampleResponse 401 "a"), Except.ok (sampleResponse 401 "b")],
           token := "t" }, []⟩ =
      (Outcome.rejected (newError "Authentication failed"),
        ⟨{ valid := [], refresh := [], responses := [], token := "" },
          [Event.isTokenValid true, Event.getAuthHeader [("Authorization", "Bearer t")],
            Event.fetch (getRequest "/api/events" [("Authorization", "Bearer t")]),
            Event.refreshToken true, Event.isTokenValid true,
            Event.getAuthHeader [("Authorization", "Bearer t*")],
            Event.fetch (getRequest "/api/events" [("Authorization", "Bearer t*")]),
            Event.refreshToken false, Event.logout,
            Event.consoleError (newError "Authentication failed")]⟩) :=
  (C1_second_401_refreshes_again scriptEnv "/api/events" (SampleValue.text "") ⟨[]⟩
    ⟨{ valid := [true, true], refresh := [true, false],
       responses := [Except.ok (sampleResponse 401 "a"), Except.ok (sampleResponse 401 "b")],
       token := "t" }, []⟩ 0 (getRequest "/api/events")
    _ _ _ _ _ _ _ _ _ _ (sampleResponse 401 "a") (sampleResponse 401 "b") false
    rfl rfl rfl rfl rfl rfl rfl rfl rfl rfl).1 rfl

/-- C2: when `isTokenValid()` returns false and the refresh that follows
returns false, each verb calls `logout` exactly once, never calls `fetch`, and
rejects with `Error('Authentication failed')`. -/
theorem C2_refresh_failure_short_circuits (env : Env σ ν) (url : String) (body : ν)
    (options : Options) (w : World σ ν) (fuel : Nat) (s1 s2 : σ)
    (hv : env.isTokenValid w.st = (false, s1))
    (hr : env.refreshToken s1 = (false, s2)) :
    ∃ evs : List (Event ν),
      evs = [Event.isTokenValid false, Event.refreshToken false, Event.logout,
        Event.consoleError (newError "Authentication failed")] ∧
      sends evs = [] ∧ logouts evs = 1 ∧
      fetchWrapper.get env (fuel + 1) url w =
        (Outcome.rejected (newError "Authentication failed"), ⟨env.logout s2, w.log ++ evs⟩) ∧
      fetchWrapper.post env (fuel + 1) url body options w =
        (Outcome.rejected (newError "Authentication failed"), ⟨env.logout s2, w.log ++ evs⟩) ∧
      fetchWrapper.delete env (fuel + 1) url w =
        (Outcome.rejected (newError "Authentication failed"), ⟨env.logout s2, w.log ++ evs⟩) := by
  refine ⟨_, rfl, rfl, rfl, ?_, ?_, ?_⟩ <;>
    simp [fetchWrapper.get, fetchWrapper.post, fetchWrapper.delete, ensureToken,
      callIsTokenValid, callRefreshToken, callLogout, catchRethrow, hv, hr]

/-- An expired token and a refresh that fails: the post is never sent. -/
theorem C2_refresh_failure_short_circuits_witness :
    ∃ evs : List (Event SampleValue),
      evs = [Event.isTokenValid false, Event.refreshToken false, Event.logout,
        Event.consoleError (newError "Authentication failed")] ∧
      sends evs = [] ∧ logouts evs = 1 ∧
      fetchWrapper.get scriptEnv 1 "/api/events"
          ⟨{ valid := [false], refresh := [false], responses := [], token := "t" }, []⟩ =
        (Outcome.rejected (newError "Authentication failed"),
          ⟨scriptEnv.logout { valid := [], refresh := [], responses := [], token := "t" },
            [] ++ evs⟩) ∧
      fetchWrapper.post scriptEnv 1 "/api/events" (SampleValue.text "b") ⟨[]⟩
          ⟨{ valid := [false], refresh := [false], responses := [], token := "t" }, []⟩ =
        (Outcome.rejected (newError "Authentication failed"),
          ⟨scriptEnv.logout { valid := [], refresh := [], responses := [], token := "t" },
            [] ++ evs⟩) ∧
      fetchWrapper.delete scriptEnv 1 "/api/events"
          ⟨{ valid := [false], refresh := [false], responses := [], token := "t" }, []⟩ =
        (Outcome.rejected (newError "Authentication failed"),
          ⟨scriptEnv.logout { valid := [], refresh := [], responses := [], token := "t" },
            [] ++ evs⟩) :=
  C2_refresh_failure_short_circuits scriptEnv "/api/events" (SampleValue.text "b") ⟨[]⟩
    ⟨{ valid := [false], refresh := [false], responses := [], token := "t" }, []⟩ 0
    { valid := [], refresh := [false], responses := [], token := "t" }
    { valid := [], refresh := [], responses := [], token := "t" } rfl rfl

/-- The request sent by `post` does not depend on `options`: two calls that
differ only in `options` leave the same promise and the same log. -/
theorem post_ignores_options (env : Env σ ν) (fuel : Nat) (url : String) (body : ν)
    (options options' : Options) (w : World σ ν) :
    fetchWrapper.post env fuel url body options w =
      fetchWrapper.post env fuel url body options' w := by
  induction fuel generalizing w with
  | zero => rfl
  | succ n ih =>
    simp only [fetchWrapper.post]
    split
    · rfl
    · split
      · rfl
      · simp only [ih]

/-- C3 fails on the code: a post called with `options.headers` holding
`X-Request-Id: 42` sends exactly one request, whose headers hold the
authentication header and the content type but no `X-Request-Id`. -/
theorem C3_post_drops_option_headers :
    sends (fetchWrapper.post scriptEnv 1 "/api/events" (SampleValue.text "b")
        ⟨[("X-Request-Id", "42")]⟩
        ⟨{ valid := [true], refresh := [], responses := [Except.ok (sampleResponse 200 "ok")],
           token := "t" }, []⟩).2.log =
      [{ url := "http://localhost:5000/api/events", method := "POST",
         headers := [("Content-Type", "application/json"), ("Authorization", "Bearer t")],
         body := some (SampleValue.text "\"b\"") }] ∧
    getProp [("Content-Type", "application/json"), ("Authorization", "Bearer t")]
      "X-Request-Id" = none ∧
    getProp [("Content-Type", "application/json"), ("Authorization", "Bearer t")]
      "Authorization" = some "Bearer t" := by
  refine ⟨?_, ?_, ?_⟩ <;> decide

theorem ok_true_of_2xx (r : Response ν) (h : 200 ≤ r.status ∧ r.status ≤ 299) :
    r.ok = true := by
  simp [Response.ok, h]

theorem ok_false_of_not_2xx (r : Response ν) (h : ¬ (200 ≤ r.status ∧ r.status ≤ 299)) :
    r.ok = false := by
  simp only [Response.ok, decide_eq_false_iff_not]
  exact h

/-- C4: when `isTokenValid()` returns true and the send is answered by a 2xx
response with status `s` whose body decodes to `d`, get and post resolve with
`{ data: d, status: s }` after exactly one send, no refresh and no logout. -/
theorem C4_valid_token_pass_through (env : Env σ ν) (url : String) (body : ν)
    (options : Options) (w : World σ ν) (fuel : Nat) (mk : JsObject → Request ν)
    (s1 s2 s3 : σ) (auth : JsObject) (r : Response ν) (d : ν)
    (hv : env.isTokenValid w.st = (true, s1))
    (ha : env.getAuthHeader s1 = (auth, s2))
    (hf : env.fetch (mk auth) s2 = (Except.ok r, s3))
    (h2xx : 200 ≤ r.status ∧ r.status ≤ 299)
    (hj : r.json = Except.ok d) :
    ∃ evs : List (Event ν),
      evs = [Event.isTokenValid true, Event.getAuthHeader auth, Event.fetch (mk auth)] ∧
      sends evs = [mk auth] ∧ refreshes evs = [] ∧ logouts evs = 0 ∧
      (mk = getRequest url →
        fetchWrapper.get env (fuel + 1) url w =
          (Outcome.resolved { data := some d, status := r.status }, ⟨s3, w.log ++ evs⟩)) ∧
      (mk = postRequest env url body →
        fetchWrapper.post env (fuel + 1) url body options w =
          (Outcome.resolved { data := some d, status := r.status }, ⟨s3, w.log ++ evs⟩)) := by
  have k := ok_true_of_2xx r h2xx
  refine ⟨_, rfl, rfl, rfl, rfl, ?_, ?_⟩ <;> rintro rfl <;>
    simp [fetchWrapper.get, fetchWrapper.post, ensureToken, callIsTokenValid,
      callGetAuthHeader, callFetch, hv, ha, hf, hj, k]

/-- A valid token and a 201 answer to a post. -/
theorem C4_valid_token_pass_through_witness :
    fetchWrapper.post scriptEnv 1 "/api/events" (SampleValue.text "b") ⟨[]⟩
        ⟨{ valid := [true], refresh := [], responses := [Except.ok (sampleResponse 201 "made")],
           token := "t" }, []⟩ =
      (Outcome.resolved { data := some (SampleValue.text "made"), status := 201 },
        ⟨{ valid := [], refresh := [], responses := [], token := "t" },
          [Event.isTokenValid true, Event.getAuthHeader [("Authorization", "Bearer t")],
            Event.fetch (postRequest scriptEnv "/api/events" (SampleValue.text "b")
              [("Authorization", "Bearer t")])]⟩) := by
  obtain ⟨evs, hevs, -, -, -, -, hpost⟩ :=
    C4_valid_token_pass_through scriptEnv "/api/events" (SampleValue.text "b") ⟨[]⟩
      ⟨{ valid := [true], refresh := [], responses := [Except.ok (sampleResponse 201 "made")],
         token := "t" }, []⟩ 0 (postRequest scriptEnv "/api/events" (SampleValue.text "b"))
      { valid := [], refresh := [], responses := [Except.ok (sampleResponse 201 "made")],
        token := "t" }
      { valid := [], refresh := [], responses := [Except.ok (sampleResponse 201 "made")],
        token := "t" }
      { valid := [], refresh := [], responses := [], token := "t" }
      [("Authorization", "Bearer t")] (sampleResponse 201 "made") (SampleValue.text "made")
      rfl rfl rfl (by decide) rfl
  subst hevs
  exact hpost rfl

/-- C5, as stated, fails for delete: a delete answered 200 with a body that
decodes to the text `gone` resolves with a result that has a status and no
payload. -/
theorem C5_delete_has_no_payload_counterexample :
    (sampleResponse 200 "gone").json = Except.ok (SampleValue.text "gone") ∧
    (fetchWrapper.delete scriptEnv 1 "/api/events/1"
        ⟨{ valid := [true], refresh := [], responses := [Except.ok (sampleResponse 200 "gone")],
           token := "t" }, []⟩).1 = Outcome.resolved { data := none, status := 200 } ∧
    (fetchWrapper.delete scriptEnv 1 "/api/events/1"
        ⟨{ valid := [true], refresh := [], responses := [Except.ok (sampleResponse 200 "gone")],
           token := "t" }, []⟩).1 ≠
      Outcome.resolved { data := some (SampleValue.text "gone"), status := 200 } := by
  refine ⟨rfl, ?_, ?_⟩ <;> decide

/-- C5, amended: when the token check of a verb passes and the send is
answered by a 2xx response with status `s`, get and post resolve with
`{ data: d, status: s }` if the body decodes to `d`, and delete resolves with
`{ status: s }`, without a payload and without reading the body. -/
theorem C5_payload_and_status (env : Env σ ν) (url : String) (body : ν)
    (options : Options) (w w1 : World σ ν) (fuel : Nat) (mk : JsObject → Request ν)
    (s2 s3 : σ) (auth : JsObject) (r : Response ν)
    (hc : ensureToken env w = (Except.ok (), w1))
    (ha : env.getAuthHeader w1.st = (auth, s2))
    (hf : env.fetch (mk auth) s2 = (Except.ok r, s3))
    (h2xx : 200 ≤ r.status ∧ r.status ≤ 299) :
    (mk = getRequest url → ∀ d, r.json = Except.ok d →
      fetchWrapper.get env (fuel + 1) url w =
        (Outcome.resolved { data := some d, status := r.status },
          ⟨s3, w1.log ++ [Event.getAuthHeader auth, Event.fetch (mk auth)]⟩)) ∧
    (mk = postRequest env url body → ∀ d, r.json = Except.ok d →
      fetchWrapper.post env (fuel + 1) url body options w =
        (Outcome.resolved { data := some d, status := r.status },
          ⟨s3, w1.log ++ [Event.getAuthHeader auth, Event.fetch (mk auth)]⟩)) ∧
    (mk = deleteRequest url →
      fetchWrapper.delete env (fuel + 1) url w =
        (Outcome.resolved { data := none, status := r.status },
          ⟨s3, w1.log ++ [Event.getAuthHeader auth, Event.fetch (mk auth)]⟩)) := by
  have k := ok_true_of_2xx r h2xx
  refine ⟨?_, ?_, ?_⟩
  · rintro rfl d hj
    simp [fetchWrapper.get, callGetAuthHeader, callFetch, hc, ha, hf, hj, k]
  · rintro rfl d hj
    simp [fetchWrapper.post, callGetAuthHeader, callFetch, hc, ha, hf, hj, k]
  · rintro rfl
    simp [fetchWrapper.delete, callGetAuthHeader, callFetch, hc, ha, hf, k]

/-- An expired token refreshed before a delete that is answered 204. -/
theorem C5_payload_and_status_witness :
    fetchWrapper.delete scriptEnv 1 "/api/events/1"
        ⟨{ valid := [false], refresh := [true],
           responses := [Except.ok (sampleResponse 204 "")], token := "t" }, []⟩ =
      (Outcome.resolved { data := none, status := 204 },
        ⟨{ valid := [], refresh := [], responses := [], token := "t*" },
          [Event.isTokenValid false, Event.refreshToken true] ++
            [Event.getAuthHeader [("Authorization", "Bearer t*")],
              Event.fetch (deleteRequest "/api/events/1" [("Authorization", "Bearer t*")])]⟩) :=
  (C5_payload_and_status scriptEnv "/api/events/1" (SampleValue.text "") ⟨[]⟩
    ⟨{ valid := [false], refresh := [true],
       responses := [Except.ok (sampleResponse 204 "")], token := "t" }, []⟩
    ⟨{ valid := [], refresh := [], responses := [Except.ok (sampleResponse 204 "")],
       token := "t*" }, [Event.isTokenValid false, Event.refreshToken true]⟩
    0 (deleteRequest "/api/events/1")
    { valid := [], refresh := [], responses := [Except.ok (sampleResponse 204 "")],
      token := "t*" }
    { valid := [], refresh := [], responses := [], token := "t*" }
    [("Authorization", "Bearer t*")] (sampleResponse 204 "")
    rfl rfl rfl (by decide)).2.2 rfl

/-- C6: when `isTokenValid()` returns true, the first send is answered 401 and
the refresh that follows returns false, each verb calls `logout` exactly once
and rejects with `Error('Authentication failed')`; `fetch` is called exactly
once. -/
theorem C6_refresh_failure_after_401 (env : Env σ ν) (url : String) (body : ν)
    (options : Options) (w : World σ ν) (fuel : Nat) (mk : JsObject → Request ν)
    (s1 s2 s3 s4 : σ) (auth : JsObject) (r : Response ν)
    (hv : env.isTokenValid w.st = (true, s1))
    (ha : env.getAuthHeader s1 = (auth, s2))
    (hf : env.fetch (mk auth) s2 = (Except.ok r, s3)) (h401 : r.status = 401)
    (hr : env.refreshToken s3 = (false, s4)) :
    ∃ evs : List (Event ν),
      evs = [Event.isTokenValid true, Event.getAuthHeader auth, Event.fetch (mk auth),
        Event.refreshToken false, Event.logout,
        Event.consoleError (newError "Authentication failed")] ∧
      sends evs = [mk auth] ∧ logouts evs = 1 ∧
      (mk = getRequest url →
        fetchWrapper.get env (fuel + 1) url w =
          (Outcome.rejected (newError "Authentication failed"),
            ⟨env.logout s4, w.log ++ evs⟩)) ∧
      (mk = postRequest env url body →
        fetchWrapper.post env (fuel + 1) url body options w =
          (Outcome.rejected (newError "Authentication failed"),
            ⟨env.logout s4, w.log ++ evs⟩)) ∧
      (mk = deleteRequest url →
        fetchWrapper.delete env (fuel + 1) url w =
          (Outcome.rejected (newError "Authentication failed"),
            ⟨env.logout s4, w.log ++ evs⟩)) := by
  have k := ok_false_of_401 r h401
  refine ⟨_, rfl, rfl, rfl, ?_, ?_, ?_⟩ <;> rintro rfl <;>
    simp [fetchWrapper.get, fetchWrapper.post, fetchWrapper.delete, ensureToken,
      callIsTokenValid, callRefreshToken, callLogout, callGetAuthHeader, callFetch,
      catchRethrow, hv, ha, hf, h401, hr, k]

/-- A valid token, a get answered 401 and a refresh that fails. -/
theorem C6_refresh_failure_after_401_witness :
    fetchWrapper.get scriptEnv 1 "/api/events"
        ⟨{ valid := [true], refresh := [false],
           responses := [Except.ok (sampleResponse 401 "no")], token := "t" }, []⟩ =
      (Outcome.rejected (newError "Authentication failed"),
        ⟨{ valid := [], refresh := [], responses := [], token := "" },
          [Event.isTokenValid true, Event.getAuthHeader [("Authorization", "Bearer t")],
            Event.fetch (getRequest "/api/events" [("Authorization", "Bearer t")]),
            Event.refreshToken false, Event.logout,
            Event.consoleError (newError "Authentication failed")]⟩) := by
  obtain ⟨evs, hevs, -, -, hget, -, -⟩ :=
    C6_refresh_failure_after_401 scriptEnv "/api/events" (SampleValue.text "") ⟨[]⟩
      ⟨{ valid := [true], refresh := [false],
         responses := [Except.ok (sampleResponse 401 "no")], token := "t" }, []⟩
      0 (getRequest "/api/events")
      { valid := [], refresh := [false], responses := [Except.ok (sampleResponse 401 "no")],
        token := "t" }
      { valid := [], refresh := [false], responses := [Except.ok (sampleResponse 401 "no")],
        token := "t" }
      { valid := [], refresh := [false], responses := [], token := "t" }
      { valid := [], refresh := [], responses := [], token := "t" }
      [("Authorization", "Bearer t")] (sampleResponse 401 "no") rfl rfl rfl rfl rfl
  subst hevs
  exact hget rfl

theorem digitChar_value : ∀ m, m < 10 → (Nat.digitChar m).toNat - 48 = m := by
  decide

theorem toDigitsCore_value (f : Nat) : ∀ (n : Nat) (ds : List Char), n < f →
    decimalValue 0 (Nat.toDigitsCore 10 f n ds) = decimalValue n ds := by
  induction f with
  | zero => intro n ds h; omega
  | succ f ih =>
    intro n ds h
    have hd : (Nat.digitChar (n % 10)).toNat - 48 = n % 10 :=
      digitChar_value _ (Nat.mod_lt _ (by decide))
    simp only [Nat.toDigitsCore]
    split
    · rename_i h0
      have : n < 10 := by omega
      rw [Nat.mod_eq_of_lt this] at hd
      simp only [decimalValue, List.foldl_cons, Nat.zero_mul, Nat.zero_add,
        Nat.mod_eq_of_lt this, hd]
    · rename_i h0
      rw [ih (n / 10) _ (by omega)]
      simp only [decimalValue, List.foldl_cons, hd]
      congr 1
      omega

theorem toString_nat_injective (a b : Nat) (h : toString a = toString b) : a = b := by
  have h1 : (Nat.toDigits 10 a) = (Nat.toDigits 10 b) := by
    have := congrArg String.data h
    simpa [toString, Nat.repr, List.asString] using this
  have ha := toDigitsCore_value (a + 1) a [] (by omega)
  have hb := toDigitsCore_value (b + 1) b [] (by omega)
  simp only [decimalValue, List.foldl_nil] at ha hb
  rw [← ha, ← hb]
  exact congrArg (decimalValue 0) h1

theorem append_toString_injective (p : String) (a b : Nat)
    (h : p ++ toString a = p ++ toString b) : a = b := by
  apply toString_nat_injective
  have := congrArg String.data h
  simp only [String.data_append, List.append_cancel_left_eq] at this
  exact String.ext this

/-- C7: when `isTokenValid()` returns true and the first send is answered by a
status `s` that is neither 2xx nor 401, each verb rejects with
`Error('HTTP error! status: s')`, the status written in decimal (no other
status gives the same message), after exactly one send, no refresh and no
logout. -/
theorem C7_other_status_not_retried (env : Env σ ν) (url : String) (body : ν)
    (options : Options) (w : World σ ν) (fuel : Nat) (mk : JsObject → Request ν)
    (s1 s2 s3 : σ) (auth : JsObject) (r : Response ν)
    (hv : env.isTokenValid w.st = (true, s1))
    (ha : env.getAuthHeader s1 = (auth, s2))
    (hf : env.fetch (mk auth) s2 = (Except.ok r, s3))
    (hnot2xx : ¬ (200 ≤ r.status ∧ r.status ≤ 299)) (hnot401 : r.status ≠ 401) :
    ∃ evs : List (Event ν),
      evs = [Event.isTokenValid true, Event.getAuthHeader auth, Event.fetch (mk auth),
        Event.consoleError (newError ("HTTP error! status: " ++ toString r.status))] ∧
      sends evs = [mk auth] ∧ refreshes evs = [] ∧ logouts evs = 0 ∧
      (∀ s : Nat, "HTTP error! status: " ++ toString s =
        "HTTP error! status: " ++ toString r.status → s = r.status) ∧
      (mk = getRequest url →
        fetchWrapper.get env (fuel + 1) url w =
          (Outcome.rejected (newError ("HTTP error! status: " ++ toString r.status)),
            ⟨s3, w.log ++ evs⟩)) ∧
      (mk = postRequest env url body →
        fetchWrapper.post env (fuel + 1) url body options w =
          (Outcome.rejected (newError ("HTTP error! status: " ++ toString r.status)),
            ⟨s3, w.log ++ evs⟩)) ∧
      (mk = deleteRequest url →
        fetchWrapper.delete env (fuel + 1) url w =
          (Outcome.rejected (newError ("HTTP error! status: " ++ toString r.status)),
            ⟨s3, w.log ++ evs⟩)) := by
  have k := ok_false_of_not_2xx r hnot2xx
  refine ⟨_, rfl, rfl, rfl, rfl, fun s hs => append_toString_injective _ s _ hs,
    ?_, ?_, ?_⟩ <;> rintro rfl <;>
    simp [fetchWrapper.get, fetchWrapper.post, fetchWrapper.delete, ensureToken,
      callIsTokenValid, callGetAuthHeader, callFetch, catchRethrow, httpErrorMessage,
      hv, ha, hf, hnot401, k]

/-- A valid token and a delete answered 500. -/
theorem C7_other_status_not_retried_witness :
    fetchWrapper.delete scriptEnv 1 "/api/events/1"
        ⟨{ valid := [true], refresh := [true],
           responses := [Except.ok (sampleResponse 500 "oops")], token := "t" }, []⟩ =
      (Outcome.rejected ⟨"Error", "HTTP error! status: 500"⟩,
        ⟨{ valid := [], refresh := [true], responses := [], token := "t" },
          [Event.isTokenValid true, Event.getAuthHeader [("Authorization", "Bearer t")],
            Event.fetch (deleteRequest "/api/events/1" [("Authorization", "Bearer t")]),
            Event.consoleError ⟨"Error", "HTTP error! status: 500"⟩]⟩) := by
  obtain ⟨evs, hevs, -, -, -, -, -, -, hdel⟩ :=
    C7_other_status_not_retried scriptEnv "/api/events/1" (SampleValue.text "") ⟨[]⟩
      ⟨{ valid := [true], refresh := [true],
         responses := [Except.ok (sampleResponse 500 "oops")], token := "t" }, []⟩
      0 (deleteRequest "/api/events/1")
      { valid := [], refresh := [true], responses := [Except.ok (sampleResponse 500 "oops")],
        token := "t" }
      { valid := [], refresh := [true], responses := [Except.ok (sampleResponse 500 "oops")],
        token := "t" }
      { valid := [], refresh := [true], responses := [], token := "t" }
      [("Authorization", "Bearer t")] (sampleResponse 500 "oops") rfl rfl rfl
      (by decide) (by decide)
  subst hevs
  exact hdel rfl

/-! ### The verbs as instances of the common shape -/

theorem get_eq_attemptLoop (env : Env σ ν) (url : String) (fuel : Nat) (w : World σ ν) :
    fetchWrapper.get env fuel url w = attemptLoop env (getRequest url) finishJson fuel w := by
  induction fuel generalizing w with
  | zero => rfl
  | succ n ih =>
    simp only [fetchWrapper.get, attemptLoop, finishJson, ih]

theorem post_eq_attemptLoop (env : Env σ ν) (url : String) (body : ν) (options : Options)
    (fuel : Nat) (w : World σ ν) :
    fetchWrapper.post env fuel url body options w =
      attemptLoop env (postRequest env url body) finishJson fuel w := by
  induction fuel generalizing w with
  | zero => rfl
  | succ n ih =>
    simp only [fetchWrapper.post, attemptLoop, finishJson, ih]

theorem delete_eq_attemptLoop (env : Env σ ν) (url : String) (fuel : Nat) (w : World σ ν) :
    fetchWrapper.delete env fuel url w =
      attemptLoop env (deleteRequest url) finishStatus fuel w := by
  induction fuel generalizing w with
  | zero => rfl
  | succ n ih =>
    simp only [fetchWrapper.delete, attemptLoop, finishStatus, ih]

theorem getProp_append_of_some (t s : JsObject) (k v : String) (h : getProp s k = some v) :
    getProp (t ++ s) k = some v := by
  induction t with
  | nil => simpa using h
  | cons p t ih =>
    obtain ⟨k', v'⟩ := p
    simp [getProp, ih]

theorem getProp_append_of_none (t s : JsObject) (k : String) (h : getProp s k = none) :
    getProp (t ++ s) k = getProp t k := by
  induction t with
  | nil => simpa [getProp] using h
  | cons p t ih =>
    obtain ⟨k', v'⟩ := p
    simp [getProp, ih]

theorem sends_append (a b : List (Event ν)) : sends (a ++ b) = sends a ++ sends b := by
  induction a with
  | nil => rfl
  | cons e a ih => cases e <;> simp [sends, ih]

theorem ensureToken_log (env : Env σ ν) (w : World σ ν) :
    ∃ pre, (ensureToken env w).2.log = w.log ++ pre ∧ sends pre = [] := by
  unfold ensureToken
  rcases hv : env.isTokenValid w.st with ⟨b, s1⟩
  rcases hr : env.refreshToken s1 with ⟨b2, s2⟩
  cases b <;> cases b2 <;>
    simp [callIsTokenValid, callRefreshToken, callLogout, hv, hr, sends]

theorem finishJson_log (r : Response ν) (w : World σ ν) :
    ∃ tl, (finishJson r w).2.log = w.log ++ tl ∧ sends tl = [] := by
  unfold finishJson
  cases r.json with
  | error e => exact ⟨[Event.consoleError e], rfl, rfl⟩
  | ok d => exact ⟨[], by simp, rfl⟩

theorem finishStatus_log (r : Response ν) (w : World σ ν) :
    ∃ tl, (finishStatus r w).2.log = w.log ++ tl ∧ sends tl = [] :=
  ⟨[], by simp [finishStatus], rfl⟩

/-- Every entry of the common body only adds to the log, and every request it
hands to `fetch` is the init object built from a value of `getAuthHeader()`. -/
theorem attemptLoop_log (env : Env σ ν) (mk : JsObject → Request ν)
    (finish : Response ν → World σ ν → Settled σ ν)
    (hfin : ∀ r w, ∃ tl, (finish r w).2.log = w.log ++ tl ∧ sends tl = [])
    (fuel : Nat) (w : World σ ν) :
    ∃ rest, (attemptLoop env mk finish fuel w).2.log = w.log ++ rest ∧
      ∀ req ∈ sends rest, ∃ s, req = mk (env.getAuthHeader s).1 := by
  induction fuel generalizing w with
  | zero => exact ⟨[], by simp [attemptLoop], by simp [sends]⟩
  | succ n ih =>
    obtain ⟨pre, hpre, hsp⟩ := ensureToken_log env w
    rcases hE : ensureToken env w with ⟨res, w1⟩
    rw [hE] at hpre
    simp only at hpre
    cases res with
    | error e =>
      refine ⟨pre ++ [Event.consoleError e], ?_, ?_⟩
      · simp [attemptLoop, hE, catchRethrow, hpre]
      · simp [sends_append, hsp, sends]
    | ok u =>
      rcases hF : env.fetch (mk (env.getAuthHeader w1.st).1) (env.getAuthHeader w1.st).2
        with ⟨fr, s4⟩
      have hreq : ∀ req ∈ [mk (env.getAuthHeader w1.st).1],
          ∃ s, req = mk (env.getAuthHeader s).1 := by
        intro req hreq
        exact ⟨w1.st, by simpa using hreq⟩
      cases fr with
      | error e =>
        refine ⟨pre ++ [Event.getAuthHeader (env.getAuthHeader w1.st).1,
          Event.fetch (mk (env.getAuthHeader w1.st).1), Event.consoleError e], ?_, ?_⟩
        · simp [attemptLoop, hE, callGetAuthHeader, callFetch, hF, catchRethrow, hpre]
        · simpa [sends_append, hsp, sends] using hreq
      | ok r =>
        by_cases hok : r.ok = true
        · obtain ⟨tl, htl, hst⟩ := hfin r ⟨s4, w1.log ++
            [Event.getAuthHeader (env.getAuthHeader w1.st).1] ++
              [Event.fetch (mk (env.getAuthHeader w1.st).1)]⟩
          refine ⟨pre ++ [Event.getAuthHeader (env.getAuthHeader w1.st).1,
            Event.fetch (mk (env.getAuthHeader w1.st).1)] ++ tl, ?_, ?_⟩
          · simp only [attemptLoop, hE, callGetAuthHeader, callFetch, hF, hok, Bool.not_true,
              Bool.false_eq_true, if_false]
            rw [htl, hpre]
            simp
          · simpa [sends_append, hsp, hst, sends] using hreq
        · by_cases h401 : r.status = 401
          · rcases hR : env.refreshToken s4 with ⟨b, s5⟩
            cases b with
            | false =>
              refine ⟨pre ++ [Event.getAuthHeader (env.getAuthHeader w1.st).1,
                Event.fetch (mk (env.getAuthHeader w1.st).1), Event.refreshToken false,
                Event.logout, Event.consoleError (newError "Authentication failed")], ?_, ?_⟩
              · simp [attemptLoop, hE, callGetAuthHeader, callFetch, hF, hok, h401,
                  callRefreshToken, hR, callLogout, catchRethrow, hpre]
              · simpa [sends_append, hsp, sends] using hreq
            | true =>
              obtain ⟨rest, hrest, hsr⟩ := ih ⟨s5, w1.log ++
                [Event.getAuthHeader (env.getAuthHeader w1.st).1] ++
                  [Event.fetch (mk (env.getAuthHeader w1.st).1)] ++ [Event.refreshToken true]⟩
              refine ⟨pre ++ [Event.getAuthHeader (env.getAuthHeader w1.st).1,
                Event.fetch (mk (env.getAuthHeader w1.st).1), Event.refreshToken true] ++ rest,
                ?_, ?_⟩
              · simp only [attemptLoop, hE, callGetAuthHeader, callFetch, hF, hok, h401,
                  callRefreshToken, hR, Bool.not_false, if_true]
                rw [hrest, hpre]
                simp
              · intro req hreq'
                simp only [sends_append, hsp, sends, List.nil_append, List.append_nil,
                  List.singleton_append, List.mem_cons] at hreq'
                rcases hreq' with h | h
                · exact ⟨w1.st, h⟩
                · exact hsr req h
          · refine ⟨pre ++ [Event.getAuthHeader (env.getAuthHeader w1.st).1,
              Event.fetch (mk (env.getAuthHeader w1.st).1),
              Event.consoleError (newError (httpErrorMessage r.status))], ?_, ?_⟩
            · simp [attemptLoop, hE, callGetAuthHeader, callFetch, hF, hok, h401,
                catchRethrow, hpre]
            · simpa [sends_append, hsp, sends] using hreq

/-- An entry whose token check passes hands to `fetch` the init object built
from the value of `getAuthHeader()` read after the check. -/
theorem attemptLoop_first_send (env : Env σ ν) (mk : JsObject → Request ν)
    (finish : Response ν → World σ ν → Settled σ ν)
    (hfin : ∀ r w, ∃ tl, (finish r w).2.log = w.log ++ tl ∧ sends tl = [])
    (w w1 : World σ ν) (auth : JsObject) (s2 : σ) (fuel : Nat)
    (hE : ensureToken env w = (Except.ok (), w1))
    (ha : env.getAuthHeader w1.st = (auth, s2)) :
    ∃ rest, (attemptLoop env mk finish (fuel + 1) w).2.log =
      w1.log ++ [Event.getAuthHeader auth, Event.fetch (mk auth)] ++ rest := by
  rcases hF : env.fetch (mk auth) s2 with ⟨fr, s4⟩
  cases fr with
  | error e =>
    exact ⟨[Event.consoleError e],
      by simp [attemptLoop, hE, callGetAuthHeader, callFetch, ha, hF, catchRethrow]⟩
  | ok r =>
    by_cases hok : r.ok = true
    · obtain ⟨tl, htl, -⟩ := hfin r ⟨s4, w1.log ++ [Event.getAuthHeader auth] ++
        [Event.fetch (mk auth)]⟩
      refine ⟨tl, ?_⟩
      simp only [attemptLoop, hE, callGetAuthHeader, callFetch, ha, hF, hok, Bool.not_true,
        Bool.false_eq_true, if_false]
      rw [htl]
      simp
    · by_cases h401 : r.status = 401
      · rcases hR : env.refreshToken s4 with ⟨b, s5⟩
        cases b with
        | false =>
          exact ⟨[Event.refreshToken false, Event.logout,
            Event.consoleError (newError "Authentication failed")],
            by simp [attemptLoop, hE, callGetAuthHeader, callFetch, ha, hF, hok, h401,
              callRefreshToken, hR, callLogout, catchRethrow]⟩
        | true =>
          obtain ⟨rest, hrest, -⟩ := attemptLoop_log env mk finish hfin fuel
            ⟨s5, w1.log ++ [Event.getAuthHeader auth] ++ [Event.fetch (mk auth)] ++
              [Event.refreshToken true]⟩
          refine ⟨Event.refreshToken true :: rest, ?_⟩
          simp only [attemptLoop, hE, callGetAuthHeader, callFetch, ha, hF, hok, h401,
            callRefreshToken, hR, Bool.not_false, if_true]
          rw [hrest]
          simp
      · exact ⟨[Event.consoleError (newError (httpErrorMessage r.status))],
          by simp [attemptLoop, hE, callGetAuthHeader, callFetch, ha, hF, hok, h401,
            catchRethrow]⟩

theorem ensureToken_refreshed (env : Env σ ν) (w : World σ ν) (s1 s2 : σ)
    (hv : env.isTokenValid w.st = (false, s1)) (hr : env.refreshToken s1 = (true, s2)) :
    ensureToken env w =
      (Except.ok (), ⟨s2, w.log ++ [Event.isTokenValid false, Event.refreshToken true]⟩) := by
  simp [ensureToken, callIsTokenValid, callRefreshToken, hv, hr]

/-- C8: when `isTokenValid()` returns false and `refreshToken()` returns true,
each verb calls `refreshToken` before its first `fetch`, and the headers of
that first request hold every header that `getAuthHeader()` yields when it is
read after the refresh. -/
theorem C8_refresh_before_first_send (env : Env σ ν) (url : String) (body : ν)
    (options : Options) (w : World σ ν) (fuel : Nat) (s1 s2 s3 : σ) (auth : JsObject)
    (hv : env.isTokenValid w.st = (false, s1))
    (hr : env.refreshToken s1 = (true, s2))
    (ha : env.getAuthHeader s2 = (auth, s3)) :
    (∃ rest, (fetchWrapper.get env (fuel + 1) url w).2.log =
        w.log ++ [Event.isTokenValid false, Event.refreshToken true,
          Event.getAuthHeader auth, Event.fetch (getRequest url auth)] ++ rest) ∧
    (∃ rest, (fetchWrapper.post env (fuel + 1) url body options w).2.log =
        w.log ++ [Event.isTokenValid false, Event.refreshToken true,
          Event.getAuthHeader auth, Event.fetch (postRequest env url body auth)] ++ rest) ∧
    (∃ rest, (fetchWrapper.delete env (fuel + 1) url w).2.log =
        w.log ++ [Event.isTokenValid false, Event.refreshToken true,
          Event.getAuthHeader auth, Event.fetch (deleteRequest url auth)] ++ rest) ∧
    ∀ k v, getProp auth k = some v →
      getProp (getRequest url auth : Request ν).headers k = some v ∧
      getProp (postRequest env url body auth).headers k = some v ∧
      getProp (deleteRequest url auth : Request ν).headers k = some v := by
  have hE := ensureToken_refreshed env w s1 s2 hv hr
  refine ⟨?_, ?_, ?_, ?_⟩
  · obtain ⟨rest, h⟩ := attemptLoop_first_send env (getRequest url) finishJson finishJson_log
      w _ auth s3 fuel hE ha
    exact ⟨rest, by rw [get_eq_attemptLoop, h]; simp⟩
  · obtain ⟨rest, h⟩ := attemptLoop_first_send env (postRequest env url body) finishJson
      finishJson_log w _ auth s3 fuel hE ha
    exact ⟨rest, by rw [post_eq_attemptLoop, h]; simp⟩
  · obtain ⟨rest, h⟩ := attemptLoop_first_send env (deleteRequest url) finishStatus
      finishStatus_log w _ auth s3 fuel hE ha
    exact ⟨rest, by rw [delete_eq_attemptLoop, h]; simp⟩
  · intro k v hkv
    exact ⟨getProp_append_of_some _ _ k v hkv, getProp_append_of_some _ _ k v hkv,
      getProp_append_of_some _ _ k v hkv⟩

/-- An expired token refreshed before a get: the request carries the token
stored by the refresh. -/
theorem C8_refresh_before_first_send_witness :
    ∃ rest, (fetchWrapper.get scriptEnv 1 "/api/events"
        ⟨{ valid := [false], refresh := [true],
           responses := [Except.ok (sampleResponse 200 "ok")], token := "t" }, []⟩).2.log =
      [] ++ [Event.isTokenValid false, Event.refreshToken true,
        Event.getAuthHeader [("Authorization", "Bearer t*")],
        Event.fetch (getRequest "/api/events" [("Authorization", "Bearer t*")])] ++ rest :=
  (C8_refresh_before_first_send scriptEnv "/api/events" (SampleValue.text "") ⟨[]⟩
    ⟨{ valid := [false], refresh := [true],
       responses := [Except.ok (sampleResponse 200 "ok")], token := "t" }, []⟩ 0
    { valid := [], refresh := [true], responses := [Except.ok (sampleResponse 200 "ok")],
      token := "t" }
    { valid := [], refresh := [], responses := [Except.ok (sampleResponse 200 "ok")],
      token := "t*" }
    { valid := [], refresh := [], responses := [Except.ok (sampleResponse 200 "ok")],
      token := "t*" }
    [("Authorization", "Bearer t*")] rfl rfl rfl).1

/-- C9: when the token check passes, the first send is answered 401, the
refresh succeeds, the store then reports valid and the second send is answered
by a 2xx response, each verb makes exactly two sends; the second request has
the method, the URL and the body of the first and holds the headers that
`getAuthHeader()` yields after the refresh; the result is built from the
second response alone. -/
theorem C9_retry_replays_request (env : Env σ ν) (url : String) (body : ν)
    (options : Options) (w w1 : World σ ν) (fuel : Nat) (mk : JsObject → Request ν)
    (s2 s3 s4 s5 s6 s7 : σ) (a1 a2 : JsObject) (r1 r2 : Response ν)
    (hc : ensureToken env w = (Except.ok (), w1))
    (ha1 : env.getAuthHeader w1.st = (a1, s2))
    (hf1 : env.fetch (mk a1) s2 = (Except.ok r1, s3)) (h401 : r1.status = 401)
    (hr : env.refreshToken s3 = (true, s4))
    (hv2 : env.isTokenValid s4 = (true, s5))
    (ha2 : env.getAuthHeader s5 = (a2, s6))
    (hf2 : env.fetch (mk a2) s6 = (Except.ok r2, s7))
    (h2xx : 200 ≤ r2.status ∧ r2.status ≤ 299) :
    ∃ evs : List (Event ν),
      evs = [Event.getAuthHeader a1, Event.fetch (mk a1), Event.refreshToken true,
        Event.isTokenValid true, Event.getAuthHeader a2, Event.fetch (mk a2)] ∧
      sends evs = [mk a1, mk a2] ∧
      (mk = getRequest url →
        (∀ d, r2.json = Except.ok d →
          fetchWrapper.get env (fuel + 2) url w =
            (Outcome.resolved { data := some d, status := r2.status }, ⟨s7, w1.log ++ evs⟩)) ∧
        (mk a2).method = (mk a1).method ∧ (mk a2).url = (mk a1).url ∧
        (mk a2).body = (mk a1).body ∧
        ∀ k v, getProp a2 k = some v → getProp (mk a2).headers k = some v) ∧
      (mk = postRequest env url body →
        (∀ d, r2.json = Except.ok d →
          fetchWrapper.post env (fuel + 2) url body options w =
            (Outcome.resolved { data := some d, status := r2.status }, ⟨s7, w1.log ++ evs⟩)) ∧
        (mk a2).method = (mk a1).method ∧ (mk a2).url = (mk a1).url ∧
        (mk a2).body = (mk a1).body ∧
        ∀ k v, getProp a2 k = some v → getProp (mk a2).headers k = some v) ∧
      (mk = deleteRequest url →
        fetchWrapper.delete env (fuel + 2) url w =
          (Outcome.resolved { data := none, status := r2.status }, ⟨s7, w1.log ++ evs⟩) ∧
        (mk a2).method = (mk a1).method ∧ (mk a2).url = (mk a1).url ∧
        (mk a2).body = (mk a1).body ∧
        ∀ k v, getProp a2 k = some v → getProp (mk a2).headers k = some v) := by
  have k1 := ok_false_of_401 r1 h401
  have k2 := ok_true_of_2xx r2 h2xx
  refine ⟨_, rfl, rfl, ?_, ?_, ?_⟩
  · rintro rfl
    refine ⟨?_, rfl, rfl, rfl, fun k v h => getProp_append_of_some _ _ k v h⟩
    intro d hj
    simp [fetchWrapper.get, callRefreshToken, callGetAuthHeader, callFetch, hc, ha1, hf1,
      h401, hr, k1]
    simp [ensureToken, callIsTokenValid, hv2, ha2, hf2, hj, k2]
  · rintro rfl
    refine ⟨?_, rfl, rfl, rfl, fun k v h => getProp_append_of_some _ _ k v h⟩
    intro d hj
    simp [fetchWrapper.post, callRefreshToken, callGetAuthHeader, callFetch, hc, ha1, hf1,
      h401, hr, k1]
    simp [ensureToken, callIsTokenValid, hv2, ha2, hf2, hj, k2]
  · rintro rfl
    refine ⟨?_, rfl, rfl, rfl, fun k v h => getProp_append_of_some _ _ k v h⟩
    simp [fetchWrapper.delete, callRefreshToken, callGetAuthHeader, callFetch, hc, ha1, hf1,
      h401, hr, k1]
    simp [ensureToken, callIsTokenValid, hv2, ha2, hf2, k2]

/-- A post answered 401, a refresh that succeeds and a second send answered
200. -/
theorem C9_retry_replays_request_witness :
    fetchWrapper.post scriptEnv 2 "/api/events" (SampleValue.text "b") ⟨[]⟩
        ⟨{ valid := [true, true], refresh := [true],
           responses := [Except.ok (sampleResponse 401 "no"),
             Except.ok (sampleResponse 200 "yes")], token := "t" }, []⟩ =
      (Outcome.resolved { data := some (SampleValue.text "yes"), status := 200 },
        ⟨{ valid := [], refresh := [], responses := [], token := "t*" },
          [Event.isTokenValid true] ++
            [Event.getAuthHeader [("Authorization", "Bearer t")],
              Event.fetch (postRequest scriptEnv "/api/events" (SampleValue.text "b")
                [("Authorization", "Bearer t")]),
              Event.refreshToken true, Event.isTokenValid true,
              Event.getAuthHeader [("Authorization", "Bearer t*")],
              Event.fetch (postRequest scriptEnv "/api/events" (SampleValue.text "b")
                [("Authorization", "Bearer t*")])]⟩) := by
  obtain ⟨evs, hevs, -, -, hpost, -⟩ :=
    C9_retry_replays_request scriptEnv "/api/events" (SampleValue.text "b") ⟨[]⟩
      ⟨{ valid := [true, true], refresh := [true],
         responses := [Except.ok (sampleResponse 401 "no"),
           Except.ok (sampleResponse 200 "yes")], token := "t" }, []⟩
      ⟨{ valid := [true], refresh := [true],
         responses := [Except.ok (sampleResponse 401 "no"),
           Except.ok (sampleResponse 200 "yes")], token := "t" }, [Event.isTokenValid true]⟩
      0 (postRequest scriptEnv "/api/events" (SampleValue.text "b"))
      { valid := [true], refresh := [true],
        responses := [Except.ok (sampleResponse 401 "no"),
          Except.ok (sampleResponse 200 "yes")], token := "t" }
      { valid := [true], refresh := [true],
        responses := [Except.ok (sampleResponse 200 "yes")], token := "t" }
      { valid := [true], refresh := [],
        responses := [Except.ok (sampleResponse 200 "yes")], token := "t*" }
      { valid := [], refresh := [],
        responses := [Except.ok (sampleResponse 200 "yes")], token := "t*" }
      { valid := [], refresh := [],
        responses := [Except.ok (sampleResponse 200 "yes")], token := "t*" }
      { valid := [], refresh := [], responses := [], token := "t*" }
      [("Authorization", "Bearer t")] [("Authorization", "Bearer t*")]
      (sampleResponse 401 "no") (sampleResponse 200 "yes")
      rfl rfl rfl rfl rfl rfl rfl rfl (by decide)
  subst hevs
  exact (hpost rfl).1 (SampleValue.text "yes") rfl

/-- C10: when `getAuthHeader()` supplies no `Content-Type`, every request a
post hands to `fetch` has, for a `FormData` body, no `Content-Type` header and
the body itself, and for any other body the header
`Content-Type: application/json` and `JSON.stringify(body)` as its body. -/
theorem C10_post_content_type_and_body (env : Env σ ν) (url : String) (body : ν)
    (options : Options) (w : World σ ν) (fuel : Nat)
    (hauth : ∀ s, getProp (env.getAuthHeader s).1 "Content-Type" = none) :
    ∃ rest, (fetchWrapper.post env fuel url body options w).2.log = w.log ++ rest ∧
      ∀ req ∈ sends rest,
        (env.instanceofFormData body = true →
          getProp req.headers "Content-Type" = none ∧ req.body = some body) ∧
        (env.instanceofFormData body = false →
          getProp req.headers "Content-Type" = some "application/json" ∧
          req.body = some (env.jsonStringify body)) := by
  obtain ⟨rest, hlog, hsends⟩ :=
    attemptLoop_log env (postRequest env url body) finishJson finishJson_log fuel w
  refine ⟨rest, by rw [post_eq_attemptLoop, hlog], ?_⟩
  intro req hreq
  obtain ⟨s, rfl⟩ := hsends req hreq
  constructor
  · intro hfd
    refine ⟨?_, by simp [postRequest, postBody, hfd]⟩
    simp only [postRequest, postHeaders, objectSpread, hfd]
    rw [getProp_append_of_none _ _ _ (hauth s)]
    rfl
  · intro hfd
    refine ⟨?_, by simp [postRequest, postBody, hfd]⟩
    simp only [postRequest, postHeaders, objectSpread, hfd]
    rw [getProp_append_of_none _ _ _ (hauth s)]
    rfl

/-- A `FormData` body posted with a valid token: one request, without a
`Content-Type` header, whose body is the `FormData` object. -/
theorem C10_post_content_type_and_body_witness :
    sends (fetchWrapper.post scriptEnv 1 "/api/upload/media" (SampleValue.formData "media")
        ⟨[]⟩
        ⟨{ valid := [true], refresh := [], token := "t",
           responses := [Except.ok (sampleResponse 200 "ok")] }, []⟩).2.log =
      [{ url := "http://localhost:5000/api/upload/media", method := "POST",
         headers := [("Authorization", "Bearer t")],
         body := some (SampleValue.formData "media") }] ∧
    ∃ rest, (fetchWrapper.post scriptEnv 1 "/api/upload/media" (SampleValue.formData "media")
        ⟨[]⟩
        ⟨{ valid := [true], refresh := [], token := "t",
           responses := [Except.ok (sampleResponse 200 "ok")] }, []⟩).2.log =
        [] ++ rest ∧
      ∀ req ∈ sends rest,
        (scriptEnv.instanceofFormData (SampleValue.formData "media") = true →
          getProp req.headers "Content-Type" = none ∧
          req.body = some (SampleValue.formData "media")) ∧
        (scriptEnv.instanceofFormData (SampleValue.formData "media") = false →
          getProp req.headers "Content-Type" = some "application/json" ∧
          req.body = some (scriptEnv.jsonStringify (SampleValue.formData "media"))) :=
  ⟨by decide,
    C10_post_content_type_and_body scriptEnv "/api/upload/media" (SampleValue.formData "media")
      ⟨[]⟩
      ⟨{ valid := [true], refresh := [], token := "t",
         responses := [Except.ok (sampleResponse 200 "ok")] }, []⟩ 1
      (fun _ => rfl)⟩

/-- C11, as stated, fails for delete: a delete answered 204 with an empty
body, which `response.json()` cannot decode, does not reject; it resolves with
the status, while a get answered the same way rejects with the error of
`response.json()`. -/
theorem C11_delete_ignores_undecodable_body_counterexample :
    (emptyBodyResponse 204).json =
      Except.error ⟨"SyntaxError", "Unexpected end of JSON input"⟩ ∧
    (fetchWrapper.delete scriptEnv 1 "/api/events/1"
        ⟨{ valid := [true], refresh := [], token := "t",
           responses := [Except.ok (emptyBodyResponse 204)] }, []⟩).1 =
      Outcome.resolved { data := none, status := 204 } ∧
    (fetchWrapper.get scriptEnv 1 "/api/events/1"
        ⟨{ valid := [true], refresh := [], token := "t",
           responses := [Except.ok (emptyBodyResponse 204)] }, []⟩).1 =
      Outcome.rejected ⟨"SyntaxError", "Unexpected end of JSON input"⟩ := by
  refine ⟨rfl, ?_, ?_⟩ <;> decide

/-- C11, amended: in an entry whose token check passes, when `fetch` rejects
with an error `e` each verb rejects with `e` itself, and when the body of a
2xx response cannot be decoded, `response.json()` rejecting with `e`, get and
post reject with `e` itself while delete, which does not read the body,
resolves with the status.  After the failing call the verb only calls
`console.error`: no send, no refresh, no logout.  An error whose name is not
`Error` differs from the authentication error and from every HTTP-status
error of the wrapper. -/
theorem C11_transport_failure_rethrown (env : Env σ ν) (url : String) (body : ν)
    (options : Options) (w w1 : World σ ν) (fuel : Nat) (mk : JsObject → Request ν)
    (s2 s3 : σ) (auth : JsObject) (fr : Except JsError (Response ν))
    (hc : ensureToken env w = (Except.ok (), w1))
    (ha : env.getAuthHeader w1.st = (auth, s2))
    (hf : env.fetch (mk auth) s2 = (fr, s3)) :
    (∀ e, fr = Except.error e →
      (mk = getRequest url →
        fetchWrapper.get env (fuel + 1) url w =
          (Outcome.rejected e, ⟨s3, w1.log ++ [Event.getAuthHeader auth, Event.fetch (mk auth),
            Event.consoleError e]⟩)) ∧
      (mk = postRequest env url body →
        fetchWrapper.post env (fuel + 1) url body options w =
          (Outcome.rejected e, ⟨s3, w1.log ++ [Event.getAuthHeader auth, Event.fetch (mk auth),
            Event.consoleError e]⟩)) ∧
      (mk = deleteRequest url →
        fetchWrapper.delete env (fuel + 1) url w =
          (Outcome.rejected e, ⟨s3, w1.log ++ [Event.getAuthHeader auth, Event.fetch (mk auth),
            Event.consoleError e]⟩))) ∧
    (∀ r e, fr = Except.ok r → 200 ≤ r.status ∧ r.status ≤ 299 → r.json = Except.error e →
      (mk = getRequest url →
        fetchWrapper.get env (fuel + 1) url w =
          (Outcome.rejected e, ⟨s3, w1.log ++ [Event.getAuthHeader auth, Event.fetch (mk auth),
            Event.consoleError e]⟩)) ∧
      (mk = postRequest env url body →
        fetchWrapper.post env (fuel + 1) url body options w =
          (Outcome.rejected e, ⟨s3, w1.log ++ [Event.getAuthHeader auth, Event.fetch (mk auth),
            Event.consoleError e]⟩)) ∧
      (mk = deleteRequest url →
        fetchWrapper.delete env (fuel + 1) url w =
          (Outcome.resolved { data := none, status := r.status },
            ⟨s3, w1.log ++ [Event.getAuthHeader auth, Event.fetch (mk auth)]⟩))) ∧
    (∀ e : JsError, sends ([Event.consoleError e] : List (Event ν)) = [] ∧
      refreshes ([Event.consoleError e] : List (Event ν)) = [] ∧
      logouts ([Event.consoleError e] : List (Event ν)) = 0) ∧
    (∀ e : JsError, e.name ≠ "Error" →
      e ≠ newError "Authentication failed" ∧ ∀ s : Nat, e ≠ newError (httpErrorMessage s)) := by
  refine ⟨?_, ?_, fun e => ⟨rfl, rfl, rfl⟩, ?_⟩
  · rintro e rfl
    refine ⟨?_, ?_, ?_⟩ <;> rintro rfl <;>
      simp [fetchWrapper.get, fetchWrapper.post, fetchWrapper.delete, callGetAuthHeader,
        callFetch, catchRethrow, hc, ha, hf]
  · rintro r e rfl h2xx hj
    have k := ok_true_of_2xx r h2xx
    refine ⟨?_, ?_, ?_⟩ <;> rintro rfl <;>
      simp [fetchWrapper.get, fetchWrapper.post, fetchWrapper.delete, callGetAuthHeader,
        callFetch, catchRethrow, hc, ha, hf, hj, k]
  · intro e hname
    refine ⟨?_, fun s => ?_⟩
    · rintro rfl
      exact hname rfl
    · rintro rfl
      exact hname rfl

/-- A post with a valid token whose `fetch` rejects with a `TypeError`. -/
theorem C11_transport_failure_rethrown_witness :
    fetchWrapper.post scriptEnv 1 "/api/events" (SampleValue.text "b") ⟨[]⟩
        ⟨{ valid := [true], refresh := [true],
           responses := [Except.error ⟨"TypeError", "Failed to fetch"⟩], token := "t" }, []⟩ =
      (Outcome.rejected ⟨"TypeError", "Failed to fetch"⟩,
        ⟨{ valid := [], refresh := [true], responses := [], token := "t" },
          [Event.isTokenValid true] ++
            [Event.getAuthHeader [("Authorization", "Bearer t")],
              Event.fetch (postRequest scriptEnv "/api/events" (SampleValue.text "b")
                [("Authorization", "Bearer t")]),
              Event.consoleError ⟨"TypeError", "Failed to fetch"⟩]⟩) :=
  ((C11_transport_failure_rethrown scriptEnv "/api/events" (SampleValue.text "b") ⟨[]⟩
    ⟨{ valid := [true], refresh := [true],
       responses := [Except.error ⟨"TypeError", "Failed to fetch"⟩], token := "t" }, []⟩
    ⟨{ valid := [], refresh := [true],
       responses := [Except.error ⟨"TypeError", "Failed to fetch"⟩], token := "t" },
      [Event.isTokenValid true]⟩
    0 (postRequest scriptEnv "/api/events" (SampleValue.text "b"))
    { valid := [], refresh := [true],
      responses := [Except.error ⟨"TypeError", "Failed to fetch"⟩], token := "t" }
    { valid := [], refresh := [true], responses := [], token := "t" }
    [("Authorization", "Bearer t")] (Except.error ⟨"TypeError", "Failed to fetch"⟩)
    rfl rfl rfl).1 ⟨"TypeError", "Failed to fetch"⟩ rfl).2.1 rfl

theorem countDoubleSlash_cons_of_ne (a : Char) (cs : List Char) (h : a ≠ '/') :
    countDoubleSlash (a :: cs) = countDoubleSlash cs := by
  cases cs with
  | nil => rfl
  | cons b rest => simp [countDoubleSlash, h]

theorem countDoubleSlash_cons_next_ne (a b : Char) (cs : List Char) (h : b ≠ '/') :
    countDoubleSlash (a :: b :: cs) = countDoubleSlash cs := by
  rw [countDoubleSlash]
  simp [h, countDoubleSlash_cons_of_ne b cs h]

theorem API_BASE_URL_data : API_BASE_URL.data = ['h', 't', 't', 'p', ':', '/', '/', 'l', 'o',
    'c', 'a', 'l', 'h', 'o', 's', 't', ':', '5', '0', '0', '0'] := by
  decide

theorem countDoubleSlash_host (p : List Char) :
    countDoubleSlash (['l', 'o', 'c', 'a', 'l', 'h', 'o', 's', 't', ':', '5', '0', '0', '0'] ++ p)
      = countDoubleSlash p := by
  simp only [List.cons_append, List.nil_append]
  repeat rw [countDoubleSlash_cons_of_ne _ _ (by decide)]

theorem countDoubleSlash_base_url (p : List Char) :
    countDoubleSlash (API_BASE_URL.data ++ p) = 1 + countDoubleSlash p := by
  rw [API_BASE_URL_data]
  simp only [List.cons_append, List.nil_append]
  rw [countDoubleSlash_cons_of_ne _ _ (by decide), countDoubleSlash_cons_of_ne _ _ (by decide),
    countDoubleSlash_cons_of_ne _ _ (by decide), countDoubleSlash_cons_of_ne _ _ (by decide),
    countDoubleSlash_cons_of_ne _ _ (by decide)]
  rw [countDoubleSlash]
  simp only [and_self, if_true]
  rw [countDoubleSlash_cons_next_ne _ _ _ (by decide)]
  repeat rw [countDoubleSlash_cons_of_ne _ _ (by decide)]

/-- C12: `API_BASE_URL` is `http://localhost:5000`, without a trailing slash,
and every request a verb hands to `fetch` has the URL `API_BASE_URL ++ p`.
For every path `p` that contains no `//` (whether or not it starts with `/`)
that URL starts with `http://`, holds exactly one `//`, and holds none after
the scheme. -/
theorem C12_url_without_doubled_separator (env : Env σ ν) (p : String) (body : ν)
    (options : Options) (w : World σ ν) (fuel : Nat) :
    API_BASE_URL = "http://localhost:5000" ∧
    API_BASE_URL.data.getLast? ≠ some '/' ∧
    (∀ s ∈ [fetchWrapper.get env fuel p w, fetchWrapper.post env fuel p body options w,
        fetchWrapper.delete env fuel p w],
      ∃ rest, s.2.log = w.log ++ rest ∧ ∀ req ∈ sends rest, req.url = API_BASE_URL ++ p) ∧
    (countDoubleSlash p.data = 0 →
      (API_BASE_URL ++ p).data.take 7 = ['h', 't', 't', 'p', ':', '/', '/'] ∧
      countDoubleSlash (API_BASE_URL ++ p).data = 1 ∧
      countDoubleSlash ((API_BASE_URL ++ p).data.drop 7) = 0) := by
  refine ⟨rfl, by decide, ?_, ?_⟩
  · intro s hs
    simp only [List.mem_cons, List.mem_singleton, List.not_mem_nil, or_false] at hs
    rcases hs with rfl | rfl | rfl
    · obtain ⟨rest, hlog, hsends⟩ :=
        attemptLoop_log env (getRequest p) finishJson finishJson_log fuel w
      refine ⟨rest, by rw [get_eq_attemptLoop, hlog], fun req hreq => ?_⟩
      obtain ⟨st, rfl⟩ := hsends req hreq
      rfl
    · obtain ⟨rest, hlog, hsends⟩ :=
        attemptLoop_log env (postRequest env p body) finishJson finishJson_log fuel w
      refine ⟨rest, by rw [post_eq_attemptLoop, hlog], fun req hreq => ?_⟩
      obtain ⟨st, rfl⟩ := hsends req hreq
      rfl
    · obtain ⟨rest, hlog, hsends⟩ :=
        attemptLoop_log env (deleteRequest p) finishStatus finishStatus_log fuel w
      refine ⟨rest, by rw [delete_eq_attemptLoop, hlog], fun req hreq => ?_⟩
      obtain ⟨st, rfl⟩ := hsends req hreq
      rfl
  · intro hp
    refine ⟨?_, ?_, ?_⟩
    · rw [String.data_append, API_BASE_URL_data]
      rfl
    · rw [String.data_append, countDoubleSlash_base_url, hp]
    · rw [String.data_append, API_BASE_URL_data]
      simp only [List.cons_append, List.nil_append, List.drop_succ_cons, List.drop_zero]
      have := countDoubleSlash_host p.data
      simp only [List.cons_append, List.nil_append] at this
      rw [this, hp]

/-- The path `/api/events` gives the URL `http://localhost:5000/api/events`. -/
theorem C12_url_without_doubled_separator_witness :
    countDoubleSlash "/api/events".data = 0 ∧
    API_BASE_URL ++ "/api/events" = "http://localhost:5000/api/events" ∧
    countDoubleSlash (API_BASE_URL ++ "/api/events").data = 1 ∧
    countDoubleSlash ((API_BASE_URL ++ "/api/events").data.drop 7) = 0 :=
  ⟨by decide, by decide,
    ((C12_url_without_doubled_separator scriptEnv "/api/events" (SampleValue.text "") ⟨[]⟩
      ⟨thirdSendScript, []⟩ 1).2.2.2 (by decide)).2.1,
    ((C12_url_without_doubled_separator scriptEnv "/api/events" (SampleValue.text "") ⟨[]⟩
      ⟨thirdSendScript, []⟩ 1).2.2.2 (by decide)).2.2⟩

theorem logouts_append (a b : List (Event ν)) : logouts (a ++ b) = logouts a + logouts b := by
  induction a with
  | nil => simp [logouts]
  | cons e a ih =>
    cases e
    all_goals simp [logouts, ih]
    omega

theorem ensureToken_cases (env : Env σ ν) (w : World σ ν) :
    (∃ pre st, ensureToken env w = (Except.ok (), ⟨st, w.log ++ pre⟩) ∧ logouts pre = 0) ∨
    (∃ st, ensureToken env w = (Except.error (newError "Authentication failed"),
      ⟨st, w.log ++ [Event.isTokenValid false, Event.refreshToken false, Event.logout]⟩)) := by
  unfold ensureToken
  rcases hv : env.isTokenValid w.st with ⟨b, s1⟩
  rcases hr : env.refreshToken s1 with ⟨b2, s2⟩
  cases b with
  | true =>
    exact Or.inl ⟨[Event.isTokenValid true], s1, by simp [callIsTokenValid, hv], rfl⟩
  | false =>
    cases b2 with
    | true =>
      exact Or.inl ⟨[Event.isTokenValid false, Event.refreshToken true], s2,
        by simp [callIsTokenValid, callRefreshToken, hv, hr], rfl⟩
    | false =>
      exact Or.inr ⟨env.logout s2,
        by simp [callIsTokenValid, callRefreshToken, callLogout, hv, hr]⟩

theorem finishJson_logouts (r : Response ν) (w : World σ ν) :
    ∃ tl, (finishJson r w).2.log = w.log ++ tl ∧ logouts tl = 0 := by
  unfold finishJson
  cases r.json with
  | error e => exact ⟨[Event.consoleError e], rfl, rfl⟩
  | ok d => exact ⟨[], by simp, rfl⟩

theorem finishStatus_logouts (r : Response ν) (w : World σ ν) :
    ∃ tl, (finishStatus r w).2.log = w.log ++ tl ∧ logouts tl = 0 :=
  ⟨[], by simp [finishStatus], rfl⟩

/-- In every run of the common body `logout()` is either not called, or called
once as the last call but `console.error`, directly after a `refreshToken()`
that returned false, the promise being rejected with the authentication
error. -/
theorem attemptLoop_logout (env : Env σ ν) (mk : JsObject → Request ν)
    (finish : Response ν → World σ ν → Settled σ ν)
    (hfin : ∀ r w, ∃ tl, (finish r w).2.log = w.log ++ tl ∧ logouts tl = 0)
    (fuel : Nat) (w : World σ ν) :
    ∃ rest, (attemptLoop env mk finish fuel w).2.log = w.log ++ rest ∧
      (logouts rest = 0 ∨
        ∃ pre, rest = pre ++ [Event.refreshToken false, Event.logout,
            Event.consoleError (newError "Authentication failed")] ∧
          logouts pre = 0 ∧
          (attemptLoop env mk finish fuel w).1 =
            Outcome.rejected (newError "Authentication failed")) := by
  induction fuel generalizing w with
  | zero => exact ⟨[], by simp [attemptLoop], Or.inl rfl⟩
  | succ n ih =>
    rcases ensureToken_cases env w with ⟨pre, st, hE, hlp⟩ | ⟨st, hE⟩
    · rcases hA : env.getAuthHeader st with ⟨auth, s2⟩
      rcases hF : env.fetch (mk auth) s2 with ⟨fr, s4⟩
      cases fr with
      | error e =>
        refine ⟨pre ++ [Event.getAuthHeader auth, Event.fetch (mk auth), Event.consoleError e],
          ?_, Or.inl ?_⟩
        · simp [attemptLoop, hE, callGetAuthHeader, callFetch, hA, hF, catchRethrow]
        · simp [logouts_append, hlp, logouts]
      | ok r =>
        by_cases hok : r.ok = true
        · obtain ⟨tl, htl, hlt⟩ := hfin r ⟨s4, w.log ++ pre ++ [Event.getAuthHeader auth] ++
            [Event.fetch (mk auth)]⟩
          refine ⟨pre ++ [Event.getAuthHeader auth, Event.fetch (mk auth)] ++ tl, ?_, Or.inl ?_⟩
          · simp only [attemptLoop, hE, callGetAuthHeader, callFetch, hA, hF, hok, Bool.not_true,
              Bool.false_eq_true, if_false]
            rw [htl]
            simp
          · simp [logouts_append, hlp, hlt, logouts]
        · by_cases h401 : r.status = 401
          · rcases hR : env.refreshToken s4 with ⟨b, s5⟩
            cases b with
            | false =>
              refine ⟨(pre ++ [Event.getAuthHeader auth, Event.fetch (mk auth)]) ++
                [Event.refreshToken false, Event.logout,
                  Event.consoleError (newError "Authentication failed")], ?_, Or.inr ⟨_, rfl, ?_, ?_⟩⟩
              · simp [attemptLoop, hE, callGetAuthHeader, callFetch, hA, hF, hok, h401,
                  callRefreshToken, hR, callLogout, catchRethrow]
              · simp [logouts_append, hlp, logouts]
              · simp [attemptLoop, hE, callGetAuthHeader, callFetch, hA, hF, hok, h401,
                  callRefreshToken, hR, callLogout, catchRethrow]
            | true =>
              obtain ⟨rest, hrest, hcase⟩ := ih ⟨s5, w.log ++ pre ++
                [Event.getAuthHeader auth] ++ [Event.fetch (mk auth)] ++
                  [Event.refreshToken true]⟩
              have hstep : attemptLoop env mk finish (n + 1) w =
                  attemptLoop env mk finish n ⟨s5, w.log ++ pre ++
                    [Event.getAuthHeader auth] ++ [Event.fetch (mk auth)] ++
                      [Event.refreshToken true]⟩ := by
                simp only [attemptLoop, hE, callGetAuthHeader, callFetch, hA, hF, hok, h401,
                  callRefreshToken, hR, Bool.not_false, if_true]
              refine ⟨pre ++ [Event.getAuthHeader auth, Event.fetch (mk auth),
                Event.refreshToken true] ++ rest, ?_, ?_⟩
              · rw [hstep, hrest]
                simp
              · rcases hcase with h0 | ⟨pre2, hpre2, hl2, hout⟩
                · exact Or.inl (by simp [logouts_append, hlp, h0, logouts])
                · refine Or.inr ⟨pre ++ [Event.getAuthHeader auth, Event.fetch (mk auth),
                    Event.refreshToken true] ++ pre2, ?_, ?_, ?_⟩
                  · rw [hpre2]
                    simp
                  · simp [logouts_append, hlp, hl2, logouts]
                  · rw [hstep, hout]
          · refine ⟨pre ++ [Event.getAuthHeader auth, Event.fetch (mk auth),
              Event.consoleError (newError (httpErrorMessage r.status))], ?_, Or.inl ?_⟩
            · simp [attemptLoop, hE, callGetAuthHeader, callFetch, hA, hF, hok, h401,
                catchRethrow]
            · simp [logouts_append, hlp, logouts]
    · refine ⟨[Event.isTokenValid false] ++ [Event.refreshToken false, Event.logout,
        Event.consoleError (newError "Authentication failed")], ?_, Or.inr ⟨_, rfl, rfl, ?_⟩⟩
      · simp [attemptLoop, hE, catchRethrow]
      · simp [attemptLoop, hE, catchRethrow]

theorem http_message_ne_authentication (s : Nat) :
    newError (httpErrorMessage s) ≠ newError "Authentication failed" := by
  intro h
  have h1 : httpErrorMessage s = "Authentication failed" := congrArg JsError.message h
  have h2 := congrArg String.data h1
  simp [httpErrorMessage, String.data_append] at h2

/-- C13: for every behaviour of the collaborators and every number of entries,
each verb calls `logout()` at most once, and when it does, the call comes
directly after a `refreshToken()` that returned false, it is the last call but
`console.error`, and the promise is rejected with
`Error('Authentication failed')`.  Hence a verb whose promise is not rejected
with that error (resolved with a result, rejected with an HTTP-status error or
with an error of another name, or still pending) has not called `logout()`. -/
theorem C13_logout_only_on_refresh_failure (env : Env σ ν) (url : String) (body : ν)
    (options : Options) (w : World σ ν) (fuel : Nat) :
    ∀ s ∈ [fetchWrapper.get env fuel url w, fetchWrapper.post env fuel url body options w,
        fetchWrapper.delete env fuel url w],
      ∃ rest, s.2.log = w.log ++ rest ∧ logouts rest ≤ 1 ∧
        (logouts rest = 0 ∨
          ∃ pre, rest = pre ++ [Event.refreshToken false, Event.logout,
              Event.consoleError (newError "Authentication failed")] ∧
            logouts pre = 0 ∧ s.1 = Outcome.rejected (newError "Authentication failed")) ∧
        (s.1 ≠ Outcome.rejected (newError "Authentication failed") → logouts rest = 0) ∧
        (∀ v, s.1 = Outcome.resolved v → logouts rest = 0) ∧
        (∀ n : Nat, s.1 = Outcome.rejected (newError (httpErrorMessage n)) →
          logouts rest = 0) ∧
        (∀ e : JsError, e.name ≠ "Error" → s.1 = Outcome.rejected e → logouts rest = 0) := by
  have key : ∀ s : Settled σ ν,
      (∃ rest, s.2.log = w.log ++ rest ∧
        (logouts rest = 0 ∨
          ∃ pre, rest = pre ++ [Event.refreshToken false, Event.logout,
              Event.consoleError (newError "Authentication failed")] ∧
            logouts pre = 0 ∧ s.1 = Outcome.rejected (newError "Authentication failed"))) →
      ∃ rest, s.2.log = w.log ++ rest ∧ logouts rest ≤ 1 ∧
        (logouts rest = 0 ∨
          ∃ pre, rest = pre ++ [Event.refreshToken false, Event.logout,
              Event.consoleError (newError "Authentication failed")] ∧
            logouts pre = 0 ∧ s.1 = Outcome.rejected (newError "Authentication failed")) ∧
        (s.1 ≠ Outcome.rejected (newError "Authentication failed") → logouts rest = 0) ∧
        (∀ v, s.1 = Outcome.resolved v → logouts rest = 0) ∧
        (∀ n : Nat, s.1 = Outcome.rejected (newError (httpErrorMessage n)) →
          logouts rest = 0) ∧
        (∀ e : JsError, e.name ≠ "Error" → s.1 = Outcome.rejected e → logouts rest = 0) := by
    rintro s ⟨rest, hlog, hcase⟩
    have hne : s.1 ≠ Outcome.rejected (newError "Authentication failed") →
        logouts rest = 0 := by
      intro hs
      rcases hcase with h0 | ⟨pre, -, -, hout⟩
      · exact h0
      · exact absurd hout hs
    refine ⟨rest, hlog, ?_, hcase, hne, ?_, ?_, ?_⟩
    · rcases hcase with h0 | ⟨pre, rfl, hl, -⟩
      · omega
      · simp [logouts_append, hl, logouts]
    · intro v hv
      exact hne (by rw [hv]; exact fun h => Outcome.noConfusion h)
    · intro n hn
      refine hne ?_
      rw [hn]
      intro h
      exact http_message_ne_authentication n (Outcome.rejected.inj h)
    · intro e hname he
      refine hne ?_
      rw [he]
      intro h
      exact hname (by rw [Outcome.rejected.inj h]; rfl)
  intro s hs
  simp only [List.mem_cons, List.mem_singleton, List.not_mem_nil, or_false] at hs
  rcases hs with rfl | rfl | rfl
  · apply key
    rw [get_eq_attemptLoop]
    exact attemptLoop_logout env (getRequest url) finishJson finishJson_logouts fuel w
  · apply key
    rw [post_eq_attemptLoop]
    exact attemptLoop_logout env (postRequest env url body) finishJson finishJson_logouts fuel w
  · apply key
    rw [delete_eq_attemptLoop]
    exact attemptLoop_logout env (deleteRequest url) finishStatus finishStatus_logouts fuel w

/-- An expired token and a refresh that fails: the get calls `logout()` once
and is rejected with the authentication error. -/
theorem C13_logout_only_on_refresh_failure_witness :
    (fetchWrapper.get scriptEnv 1 "/api/events"
        ⟨{ valid := [false], refresh := [false], responses := [], token := "t" }, []⟩).1 =
      Outcome.rejected (newError "Authentication failed") ∧
    ∃ rest, (fetchWrapper.get scriptEnv 1 "/api/events"
        ⟨{ valid := [false], refresh := [false], responses := [], token := "t" }, []⟩).2.log =
        [] ++ rest ∧ logouts rest ≤ 1 ∧
      ((fetchWrapper.get scriptEnv 1 "/api/events"
          ⟨{ valid := [false], refresh := [false], responses := [], token := "t" }, []⟩).1 ≠
        Outcome.rejected (newError "Authentication failed") → logouts rest = 0) := by
  obtain ⟨rest, hlog, hle, -, hne, -⟩ :=
    C13_logout_only_on_refresh_failure scriptEnv "/api/events" (SampleValue.text "") ⟨[]⟩
      ⟨{ valid := [false], refresh := [false], responses := [], token := "t" }, []⟩ 1
      (fetchWrapper.get scriptEnv 1 "/api/events"
        ⟨{ valid := [false], refresh := [false], responses := [], token := "t" }, []⟩)
      (List.mem_cons_self _ _)
  exact ⟨by decide, rest, hlog, hle, hne⟩

end Properties

end AJCChurch
